import Mathlib

/-!
Shallow embedding of `mk1/ui/static/script.js` (the English copy; the Japanese copy
under `mk1_japanese/mk2/ui/static/script.js` differs only in user-facing strings).
The script is a browser chat client: a chat form submit handler, a template list
loader, and save / load / reset / delete template button handlers.

Modelling choices:
* The DOM state the script reads and writes is a record `Dom` (message input, chat
  turn list, debug log, template select options and value, name input).
* Each event handler becomes a pure function from the current `Dom` and the
  environment's answers (confirm dialogs, fetch outcomes) to the new `Dom` plus the
  ordered list of observable effects (requests issued, alerts, confirm prompts,
  console logging, fire-and-forget calls to `loadTemplates`).
* `fetch` outcomes are a free parameter: the promise rejects with an error message,
  or resolves with a status and the result of `response.json()` (which may itself
  reject with a decode error).
* JSON values are the inductive `Json`; JavaScript coercions used by the script
  (ToString, property access incl. the TypeError on `null`, `textContent` /
  `alert` / `new Error` conversions, strict equality with `0`) are modelled
  explicitly. JSON numbers are modelled as integers — the script never produces or
  inspects fractional numbers. Lean `String` is UTF-8, matching the encoding fetch
  applies to request bodies.
-/

namespace PotatoBot

/-- JSON values, as produced by `response.json()` and consumed by `JSON.stringify`. -/
inductive Json where
  | null
  | bool (b : Bool)
  | num (n : Int)
  | str (s : String)
  | arr (elems : List Json)
  | obj (fields : List (String × Json))

/-- Is this value a JS array (`Array.isArray`)? -/
def Json.isArr : Json → Bool
  | .arr _ => true
  | _ => false

/-- Is this value JS `null`? -/
def Json.isNull : Json → Bool
  | .null => true
  | _ => false

mutual

/-- JavaScript `String(x)` conversion for the values the script can touch:
`null → "null"`, booleans and numbers print, strings pass through, arrays behave
like `Array.prototype.join(",")` (where a `null` element renders empty), plain
objects give `"[object Object]"`. -/
def jsString : Json → String
  | .null => "null"
  | .bool true => "true"
  | .bool false => "false"
  | .num n => toString n
  | .str s => s
  | .arr elems => jsStringJoin elems
  | .obj _ => "[object Object]"

/-- `Array.prototype.join(",")` on JSON elements; `null` elements render empty. -/
def jsStringJoin : List Json → String
  | [] => ""
  | [.null] => ""
  | [j] => jsString j
  | .null :: rest => "," ++ jsStringJoin rest
  | j :: rest => jsString j ++ "," ++ jsStringJoin rest

end

/-- Lower-case hex digit. -/
def hexDigit (n : Nat) : Char :=
  if n < 10 then Char.ofNat (48 + n) else Char.ofNat (87 + n)

/-- Four-digit hex rendering used by `JSON.stringify` for control characters. -/
def hex4 (n : Nat) : String :=
  String.mk [hexDigit ((n / 4096) % 16), hexDigit ((n / 256) % 16),
             hexDigit ((n / 16) % 16), hexDigit (n % 16)]

/-- Escaping `JSON.stringify` applies inside string literals. -/
def jsonEscapeChar (c : Char) : String :=
  if c = '"' then "\\\""
  else if c = '\\' then "\\\\"
  else if c = '\n' then "\\n"
  else if c = '\r' then "\\r"
  else if c = '\t' then "\\t"
  else if c = Char.ofNat 8 then "\\b"
  else if c = Char.ofNat 12 then "\\f"
  else if c.toNat < 32 then "\\u" ++ hex4 c.toNat
  else String.singleton c

/-- Escape a whole string for a JSON string literal. -/
def jsonEscape (s : String) : String :=
  String.join (s.toList.map jsonEscapeChar)

mutual

/-- `JSON.stringify` on the JSON fragment above (no `undefined`, no functions). -/
def Json.stringify : Json → String
  | .null => "null"
  | .bool true => "true"
  | .bool false => "false"
  | .num n => toString n
  | .str s => "\"" ++ jsonEscape s ++ "\""
  | .arr elems => "[" ++ stringifyElems elems ++ "]"
  | .obj fields => "\x7b" ++ stringifyFields fields ++ "\x7d"

/-- Comma-separated stringification of array elements. -/
def stringifyElems : List Json → String
  | [] => ""
  | [j] => Json.stringify j
  | j :: rest => Json.stringify j ++ "," ++ stringifyElems rest

/-- Comma-separated stringification of object fields. -/
def stringifyFields : List (String × Json) → String
  | [] => ""
  | [(k, v)] => "\"" ++ jsonEscape k ++ "\":" ++ Json.stringify v
  | (k, v) :: rest =>
      "\"" ++ jsonEscape k ++ "\":" ++ Json.stringify v ++ "," ++ stringifyFields rest

end

/-- JS property lookup on a plain object: with duplicate keys the later assignment
wins, as with object literals and `JSON.parse`. -/
def lookupField (fields : List (String × Json)) (key : String) : Option Json :=
  (fields.reverse.find? (fun f => f.1 = key)).map (fun f => f.2)

/-- JS property access `v[key]`: `none` models a thrown TypeError (property access on
`null`); `some none` is `undefined`; strings and arrays expose `length` (other
primitive properties are irrelevant to the script). -/
def jsGetField : Json → String → Option (Option Json)
  | .null, _ => none
  | .obj fields, key => some (lookupField fields key)
  | .str s, key => if key = "length" then some (some (.num s.length)) else some none
  | .arr elems, key => if key = "length" then some (some (.num elems.length)) else some none
  | _, _ => some none

/-- Strict equality `x === 0` for a possibly-undefined JS value: only the number `0`
compares equal (no coercions under `===`). -/
def strictEqZero : Option Json → Bool
  | some (.num n) => n == 0
  | _ => false

/-- `textContent = x` conversion: `undefined` renders as `"undefined"`, `null` as the
empty string (WebIDL LegacyNullToEmptyString), everything else via `String(x)`. -/
def textContentSet : Option Json → String
  | none => "undefined"
  | some .null => ""
  | some j => jsString j

/-- `alert(x)` conversion: `undefined` shows as `"undefined"`, otherwise `String(x)`. -/
def alertArg : Option Json → String
  | none => "undefined"
  | some j => jsString j

/-- `new Error(x).message`: `Error(undefined)` leaves the message empty, otherwise
the message is `String(x)`. -/
def errorCtorMsg : Option Json → String
  | none => ""
  | some j => jsString j

/-- Message of the TypeError raised by property access on `null` (engine wording
abstracted to one fixed shape). -/
def nullAccessMsg (key : String) : String :=
  "Cannot read properties of null (reading \x27" ++ key ++ "\x27)"

/-- Message of the TypeError raised by calling `forEach` on a non-array (engine
wording abstracted). -/
def forEachTypeErrorMsg : String :=
  "templates.forEach is not a function"

/-- The characters JS `String.prototype.trim` strips: WhiteSpace (tab, vertical tab,
form feed, space, no-break space, BOM, Unicode space separators) and LineTerminator
(LF, CR, LS, PS). -/
def jsIsWhitespace (c : Char) : Bool :=
  c = '\t' || c.toNat = 11 || c.toNat = 12 || c = ' ' || c = '\n' || c = '\r' ||
    c.toNat = 160 || c.toNat = 0xfeff || c.toNat = 0x2028 || c.toNat = 0x2029 ||
    c.toNat = 0x1680 || (0x2000 ≤ c.toNat && c.toNat ≤ 0x200a) ||
    c.toNat = 0x202f || c.toNat = 0x205f || c.toNat = 0x3000

/-- Drop leading JS whitespace from a character list. -/
def dropLeadingWs : List Char → List Char
  | [] => []
  | c :: rest => if jsIsWhitespace c then dropLeadingWs rest else c :: rest

/-- JS `String.prototype.trim`: strip leading and trailing whitespace. -/
def jsTrim (s : String) : String :=
  ⟨(dropLeadingWs (dropLeadingWs s.data).reverse).reverse⟩

/-! ## DOM view model -/

/-- A rendered chat turn: `appendMessage(sender, message, messageClass)` creates a
div of class `message`/`messageClass` holding a `<strong>` with the sender and a div
with the message text. -/
structure Turn where
  sender : String
  text : String
  cssClass : String
deriving Repr, DecidableEq

/-- An `<option>` of the template select. `valueAttr = none` means the `value`
property was never assigned, in which case the DOM reports the option's text as its
value. -/
structure OptionEl where
  valueAttr : Option String
  text : String
  disabled : Bool
deriving Repr, DecidableEq

/-- The value an option contributes when selected. -/
def OptionEl.value (o : OptionEl) : String :=
  o.valueAttr.getD o.text

/-- The DOM state the script reads and writes. `selectValue` is
`templateSelect.value`; `selectDisabled` is the select element's own `disabled`
property (the script reads it but never writes it). -/
structure Dom where
  messageInput : String
  chatMessages : List Turn
  debugLog : List String
  templateOptions : List OptionEl
  selectValue : String
  selectDisabled : Bool
  templateNameInput : String
deriving Repr, DecidableEq

/-- HTML default selection after the option list is replaced: the first non-disabled
option is selected; if every option is disabled (or there are none) the select
reports the empty string. -/
def defaultSelectValue : List OptionEl → String
  | [] => ""
  | o :: rest => if o.disabled then defaultSelectValue rest else o.value

/-- Replace the select's options (`innerHTML = ''` followed by `appendChild`s),
updating the reported value accordingly. -/
def setOptions (st : Dom) (opts : List OptionEl) : Dom :=
  { st with templateOptions := opts, selectValue := defaultSelectValue opts }

/-! ## Requests, effects, fetch outcomes -/

/-- One `fetch` call as issued by the script. `fetch(url)` with no init object is a
GET with no headers and no body. -/
structure Request where
  url : String
  method : String
  headers : List (String × String)
  body : Option String
deriving Repr, DecidableEq

/-- The POST shape shared by the chat, save, load and delete fetches:
`Content-Type: application/json` and a `JSON.stringify`-ed (UTF-8) body. -/
def postJsonRequest (url : String) (payload : Json) : Request :=
  ⟨url, "POST", [("Content-Type", "application/json")], some (Json.stringify payload)⟩

/-- Observable effects of a handler run, in program order. `invokeRefresh` records a
fire-and-forget call to `loadTemplates()`. -/
inductive Effect where
  | request (r : Request)
  | alert (msg : String)
  | confirmPrompt (msg : String)
  | consoleError (tag : String) (errMsg : String)
  | invokeRefresh
deriving Repr, DecidableEq

/-- The environment's answer to one fetch: the promise rejects with an error message,
or resolves with a status code and the result of `response.json()`
(`Except.error m` models `response.json()` rejecting with message `m`). -/
inductive FetchOutcome where
  | reject (errMsg : String)
  | resp (status : Nat) (body : Except String Json)

/-- `response.ok`: status in the inclusive range 200–299. -/
def statusOk (status : Nat) : Bool :=
  200 ≤ status && status < 300

/-- The message of the error thrown on a non-ok chat response. -/
def httpErrorMsg (status : Nat) : String :=
  "HTTP error! status: " ++ toString status

/-! ## Chat form submit handler (script.js lines 20–49) -/

/-- `appendMessage(sender, message, messageClass)`: appends one turn to the chat
view. The message argument is an arbitrary JS value (`data.response` may be
`undefined`); the text is what `textContent` assignment renders. -/
def appendMessage (st : Dom) (sender : String) (message : Option Json)
    (messageClass : String) : Dom :=
  { st with chatMessages := st.chatMessages ++ [⟨sender, textContentSet message, messageClass⟩] }

/-- `updateDebugLog(logEntries)`: clears the log, then repopulates only when the
argument is truthy and `Array.isArray` (so anything but an array leaves it empty). -/
def updateDebugLog (st : Dom) (logEntries : Option Json) : Dom :=
  { st with debugLog :=
      match logEntries with
      | some (.arr entries) => entries.map (fun e => textContentSet (some e))
      | _ => [] }

/-- The fixed System turn appended by the chat catch block. -/
def chatErrorTurn : Turn :=
  ⟨"System", "Sorry, I encountered an error. Please try again.", "bot-message"⟩

/-- The synchronous prefix of the chat submit handler: trim the input, bail out when
empty, optimistically append the user turn, clear the input, and issue the POST
`/chat` request (the returned request is `none` when no fetch was started). -/
def chatSubmitSync (st : Dom) : Dom × Option Request :=
  let message := jsTrim st.messageInput
  if message = "" then (st, none)
  else
    (appendMessage { st with messageInput := "" } "You" (some (.str message)) "user-message",
     some (postJsonRequest "/chat" (.obj [("message", .str message)])))

/-- The chat handler's continuation once the fetch settles: non-ok statuses are
turned into a thrown error; `data.response` on a `null` body throws; every throw
lands in the catch block, which logs the error and appends the fixed System turn. -/
def chatResolve (st : Dom) (outcome : FetchOutcome) : Dom × List Effect :=
  match outcome with
  | .reject msg =>
      ({ st with chatMessages := st.chatMessages ++ [chatErrorTurn] },
       [.consoleError "Error:" msg])
  | .resp status body =>
      if statusOk status then
        match body with
        | .error msg =>
            ({ st with chatMessages := st.chatMessages ++ [chatErrorTurn] },
             [.consoleError "Error:" msg])
        | .ok data =>
            match jsGetField data "response" with
            | none =>
                ({ st with chatMessages := st.chatMessages ++ [chatErrorTurn] },
                 [.consoleError "Error:" (nullAccessMsg "response")])
            | some respVal =>
                (updateDebugLog
                   (appendMessage st "Potato" respVal "bot-message")
                   ((jsGetField data "debug_log").join),
                 [])
      else
        ({ st with chatMessages := st.chatMessages ++ [chatErrorTurn] },
         [.consoleError "Error:" (httpErrorMsg status)])

/-- The whole chat submit handler: synchronous phase, then — when a fetch was
started — the continuation under the given outcome. The request effect precedes the
continuation's effects. -/
def chatSubmit (st : Dom) (outcome : FetchOutcome) : Dom × List Effect :=
  match chatSubmitSync st with
  | (st1, none) => (st1, [])
  | (st1, some req) =>
      let res := chatResolve st1 outcome
      (res.1, .request req :: res.2)

/-! ## loadTemplates (script.js lines 81–102) -/

/-- The placeholder option rendered for an empty template list; its `value` property
is never assigned and it is disabled. -/
def placeholderOption : OptionEl :=
  ⟨none, "No templates saved", true⟩

/-- The `<option>` rendered for one template-list element: `option.value = name`
coerces via `String(name)`, `option.textContent = name` via textContent. -/
def mkTemplateOption (name : Json) : OptionEl :=
  ⟨some (jsString name), textContentSet (some name), false⟩

/-- `loadTemplates()`: GET `/templates`, decode the body (without consulting
`response.ok`), clear the select, then render the placeholder when
`templates.length === 0`, else one option per array element. A body that is neither
an array nor something whose `length` is strictly `0` throws (TypeError on `null`
or `forEach` on a non-array) AFTER the clear; every throw is only console-logged. -/
def loadTemplates (st : Dom) (outcome : FetchOutcome) : Dom × List Effect :=
  let req : Request := ⟨"/templates", "GET", [], none⟩
  match outcome with
  | .reject msg => (st, [.request req, .consoleError "Failed to load templates:" msg])
  | .resp _status body =>
      match body with
      | .error msg => (st, [.request req, .consoleError "Failed to load templates:" msg])
      | .ok templates =>
          match jsGetField templates "length" with
          | none =>
              (setOptions st [],
               [.request req, .consoleError "Failed to load templates:" (nullAccessMsg "length")])
          | some lengthVal =>
              if strictEqZero lengthVal then
                (setOptions st [placeholderOption], [.request req])
              else
                match templates with
                | .arr names =>
                    (setOptions st (names.map mkTemplateOption), [.request req])
                | _ =>
                    (setOptions st [],
                     [.request req, .consoleError "Failed to load templates:" forEachTypeErrorMsg])

/-! ## Save template button (script.js lines 104–127) -/

/-- The save button handler. Note the source decodes the body BEFORE testing
`response.ok`, so a decode failure takes the catch path even on a 2xx status; on the
success path `alert(result.success)` throws when the body decoded to `null`. -/
def saveTemplateClick (st : Dom) (outcome : FetchOutcome) : Dom × List Effect :=
  let name := jsTrim st.templateNameInput
  if name = "" then (st, [.alert "Please enter a name for the template."])
  else
    let req := postJsonRequest "/templates/save" (.obj [("name", .str name)])
    let failAlert : String → Dom × List Effect := fun msg =>
      (st, [.request req, .alert ("Error saving template: " ++ msg)])
    match outcome with
    | .reject msg => failAlert msg
    | .resp status body =>
        match body with
        | .error msg => failAlert msg
        | .ok result =>
            if statusOk status then
              match jsGetField result "success" with
              | none => failAlert (nullAccessMsg "success")
              | some v =>
                  ({ st with templateNameInput := "" },
                   [.request req, .alert (alertArg v), .invokeRefresh])
            else
              match jsGetField result "error" with
              | none => failAlert (nullAccessMsg "error")
              | some v => failAlert (errorCtorMsg v)

/-! ## Load / reset buttons (script.js lines 129–164) -/

/-- The two actions that share `handleLoadReset`. -/
inductive LRAction where
  | load
  | reset
deriving Repr, DecidableEq

/-- The action-specific confirmation wording. -/
def confirmationText (action : LRAction) (selectedTemplate : String) : String :=
  match action with
  | .reset =>
      "This will wipe all current progress and reset the bot\x27s state to the \x27" ++
        selectedTemplate ++ "\x27 template. Are you sure?"
  | .load =>
      "This will load the \x27" ++ selectedTemplate ++
        "\x27 template. Current unsaved progress will be lost. Are you sure?"

/-- `handleLoadReset(action)`: validate the selection, confirm with action-specific
wording, then POST `/templates/load` with `{name: selectedTemplate}` — the request
does not depend on the action. On success the chat window and debug log are cleared
(the template list is not refetched). -/
def handleLoadReset (action : LRAction) (st : Dom) (confirmAnswer : Bool)
    (outcome : FetchOutcome) : Dom × List Effect :=
  let selectedTemplate := st.selectValue
  if selectedTemplate = "" || st.selectDisabled then
    (st, [.alert "No template selected."])
  else
    let conf := Effect.confirmPrompt (confirmationText action selectedTemplate)
    if confirmAnswer = false then (st, [conf])
    else
      let req := postJsonRequest "/templates/load" (.obj [("name", .str selectedTemplate)])
      let failAlert : String → Dom × List Effect := fun msg =>
        (st, [conf, .request req, .alert ("Error loading template: " ++ msg)])
      match outcome with
      | .reject msg => failAlert msg
      | .resp status body =>
          match body with
          | .error msg => failAlert msg
          | .ok result =>
              if statusOk status then
                match jsGetField result "success" with
                | none => failAlert (nullAccessMsg "success")
                | some v =>
                    ({ st with chatMessages := [], debugLog := [] },
                     [conf, .request req, .alert (alertArg v)])
              else
                match jsGetField result "error" with
                | none => failAlert (nullAccessMsg "error")
                | some v => failAlert (errorCtorMsg v)

/-! ## Delete template button (script.js lines 166–191) -/

/-- The delete confirmation wording. -/
def deleteConfirmText (selectedTemplate : String) : String :=
  "Are you sure you want to permanently delete the \x27" ++ selectedTemplate ++
    "\x27 template?"

/-- The delete button handler: validate the selection, confirm, POST
`/templates/delete`; on success alert and refetch the template list. -/
def deleteTemplateClick (st : Dom) (confirmAnswer : Bool)
    (outcome : FetchOutcome) : Dom × List Effect :=
  let selectedTemplate := st.selectValue
  if selectedTemplate = "" || st.selectDisabled then
    (st, [.alert "No template selected."])
  else
    let conf := Effect.confirmPrompt (deleteConfirmText selectedTemplate)
    if confirmAnswer = false then (st, [conf])
    else
      let req := postJsonRequest "/templates/delete" (.obj [("name", .str selectedTemplate)])
      let failAlert : String → Dom × List Effect := fun msg =>
        (st, [conf, .request req, .alert ("Error deleting template: " ++ msg)])
      match outcome with
      | .reject msg => failAlert msg
      | .resp status body =>
          match body with
          | .error msg => failAlert msg
          | .ok result =>
              if statusOk status then
                match jsGetField result "success" with
                | none => failAlert (nullAccessMsg "success")
                | some v =>
                    (st, [conf, .request req, .alert (alertArg v), .invokeRefresh])
              else
                match jsGetField result "error" with
                | none => failAlert (nullAccessMsg "error")
                | some v => failAlert (errorCtorMsg v)

/-! ## Effect observations -/

/-- The requests an effect list contains, in order. -/
def requestsOf (effs : List Effect) : List Request :=
  effs.filterMap fun e => match e with | .request r => some r | _ => none

/-- The alert messages an effect list contains, in order. -/
def alertsOf (effs : List Effect) : List String :=
  effs.filterMap fun e => match e with | .alert m => some m | _ => none

/-- The console (diagnostic channel) entries an effect list contains, in order. -/
def consoleErrorsOf (effs : List Effect) : List (String × String) :=
  effs.filterMap fun e => match e with | .consoleError t m => some (t, m) | _ => none

/-- How many times the effect list fires `loadTemplates()`. -/
def refreshCount (effs : List Effect) : Nat :=
  (effs.filterMap fun e => match e with | .invokeRefresh => some () | _ => none).length

/-- An effect list with the confirm prompts removed (everything an onlooker sees
besides the confirmation dialogs). -/
def nonConfirm (effs : List Effect) : List Effect :=
  effs.filter fun e => match e with | .confirmPrompt _ => false | _ => true

/-! ## Spec-side characterizations -/

/-- Success as the success branches observe it: the fetch resolved with an ok status,
`response.json()` decoded, and the decoded value is not `null` (field access on
`null` throws, diverting to the catch path). -/
def opSuccess : FetchOutcome → Bool
  | .resp status (.ok j) => statusOk status && !j.isNull
  | _ => false

/-- The User turn the chat handler appends synchronously. -/
def userTurnOf (st : Dom) : Turn :=
  ⟨"You", jsTrim st.messageInput, "user-message"⟩

/-- The one turn the chat handler appends after its fetch settles: the Bot turn
rendered from `data.response` when the request succeeded (ok status, decoded,
non-null body), the fixed System turn otherwise. -/
def chatOutcomeTurn : FetchOutcome → Turn
  | .resp status (.ok data) =>
      if statusOk status && !data.isNull then
        ⟨"Potato", textContentSet ((jsGetField data "response").join), "bot-message"⟩
      else chatErrorTurn
  | _ => chatErrorTurn

/-- The failure modes the spec lists for chat: the fetch rejects, the HTTP status is
not a success, or the body fails to decode. -/
def chatListedFailure : FetchOutcome → Bool
  | .reject _ => true
  | .resp _ (.error _) => true
  | .resp status (.ok _) => !statusOk status

/-- Does `loadTemplates` get through rendering without a throw: the decoded body is
an array, or its `length` is strictly equal to `0`? -/
def loadRenderOk : FetchOutcome → Bool
  | .resp _ (.ok j) => strictEqZero ((jsGetField j "length").join) || j.isArr
  | _ => false

/-- Does `loadTemplates` throw after it has already cleared the select (a decoded
body that is neither an array nor `length === 0`)? -/
def loadThrowsAfterClear : FetchOutcome → Bool
  | .resp _ (.ok j) => !(strictEqZero ((jsGetField j "length").join) || j.isArr)
  | _ => false

/-! ## Helper lemmas -/

theorem jsGetField_eq_none_iff (j : Json) (k : String) :
    jsGetField j k = none ↔ j = .null := by
  cases j <;> simp only [jsGetField] <;> try simp
  all_goals split <;> simp

theorem Json.isNull_eq_true_iff (j : Json) : j.isNull = true ↔ j = .null := by
  cases j <;> simp [Json.isNull]

theorem Json.isNull_eq_false_of_getField_some (j : Json) (k : String) (v : Option Json)
    (h : jsGetField j k = some v) : j.isNull = false := by
  cases j <;> simp_all [jsGetField, Json.isNull]

theorem handleLoadReset_action_irrelevant (a b : LRAction) (st : Dom)
    (confirmAnswer : Bool) (outcome : FetchOutcome) :
    (handleLoadReset a st confirmAnswer outcome).1 =
      (handleLoadReset b st confirmAnswer outcome).1 ∧
    nonConfirm (handleLoadReset a st confirmAnswer outcome).2 =
      nonConfirm (handleLoadReset b st confirmAnswer outcome).2 := by
  unfold handleLoadReset
  by_cases h1 : (decide (st.selectValue = "") || st.selectDisabled) = true
  · simp [h1]
  · simp only [h1, Bool.false_eq_true, if_false]
    cases confirmAnswer with
    | false => simp [nonConfirm]
    | true =>
        rw [if_neg (by simp)]
        cases outcome with
        | reject msg => simp [nonConfirm]
        | resp status body =>
            cases body with
            | error msg => simp [nonConfirm]
            | ok result =>
                by_cases hs : statusOk status = true <;>
                  simp only [hs, Bool.false_eq_true, if_true, if_false] <;>
                  cases h : jsGetField result "success" <;>
                  cases h2 : jsGetField result "error" <;>
                  simp [nonConfirm]

theorem handleLoadReset_request_shape (a : LRAction) (st : Dom)
    (confirmAnswer : Bool) (outcome : FetchOutcome) :
    ∀ r ∈ requestsOf (handleLoadReset a st confirmAnswer outcome).2,
      r = postJsonRequest "/templates/load" (.obj [("name", .str st.selectValue)]) := by
  unfold handleLoadReset
  by_cases h1 : (decide (st.selectValue = "") || st.selectDisabled) = true
  · simp [h1, requestsOf]
  · simp only [h1, Bool.false_eq_true, if_false]
    cases confirmAnswer with
    | false => simp [requestsOf]
    | true =>
        rw [if_neg (by simp)]
        cases outcome with
        | reject msg => simp [requestsOf]
        | resp status body =>
            cases body with
            | error msg => simp [requestsOf]
            | ok result =>
                by_cases hs : statusOk status = true <;>
                  simp only [hs, Bool.false_eq_true, if_true, if_false] <;>
                  cases h : jsGetField result "success" <;>
                  cases h2 : jsGetField result "error" <;>
                  simp [requestsOf]

theorem confirmationText_load_ne_reset (sel : String) :
    confirmationText .load sel ≠ confirmationText .reset sel := by
  intro h
  have hl := congrArg String.length h
  simp only [confirmationText, String.length_append] at hl
  have e1 : ("This will load the \x27" : String).length = 20 := by decide
  have e2 : ("\x27 template. Current unsaved progress will be lost. Are you sure?" : String).length = 64 := by decide
  have e3 : ("This will wipe all current progress and reset the bot\x27s state to the \x27" : String).length = 70 := by decide
  have e4 : ("\x27 template. Are you sure?" : String).length = 25 := by decide
  omega

/-! ## Claim theorems -/

/-- C2: For every selected template name, LoadTemplate and ResetTemplate issue
identical network requests — the endpoint `/templates/load`, method POST, the same
headers, and the payload `{name: selectedTemplate}` — and under identical answers
from the environment the two actions produce identical states and identical effects
apart from the confirmation prompts, whose texts always differ. -/
theorem load_reset_requests_identical (st : Dom) (confirmAnswer : Bool)
    (outcome : FetchOutcome) :
    (handleLoadReset .load st confirmAnswer outcome).1 =
      (handleLoadReset .reset st confirmAnswer outcome).1 ∧
    nonConfirm (handleLoadReset .load st confirmAnswer outcome).2 =
      nonConfirm (handleLoadReset .reset st confirmAnswer outcome).2 ∧
    (∀ r ∈ requestsOf (handleLoadReset .load st confirmAnswer outcome).2,
        r = postJsonRequest "/templates/load" (.obj [("name", .str st.selectValue)])) ∧
    (∀ r ∈ requestsOf (handleLoadReset .reset st confirmAnswer outcome).2,
        r = postJsonRequest "/templates/load" (.obj [("name", .str st.selectValue)])) ∧
    (∀ sel : String, confirmationText .load sel ≠ confirmationText .reset sel) :=
  ⟨(handleLoadReset_action_irrelevant .load .reset st confirmAnswer outcome).1,
   (handleLoadReset_action_irrelevant .load .reset st confirmAnswer outcome).2,
   handleLoadReset_request_shape .load st confirmAnswer outcome,
   handleLoadReset_request_shape .reset st confirmAnswer outcome,
   confirmationText_load_ne_reset⟩

/-- C2 witness: on a concrete state with template "tpl" selected, the (shared)
request shape extracted from the theorem at the concrete issued request. -/
theorem load_reset_requests_identical_witness :
    postJsonRequest "/templates/load" (Json.obj [("name", Json.str "tpl")]) =
      postJsonRequest "/templates/load"
        (Json.obj [("name", Json.str (Dom.selectValue ⟨"", [], [], [], "tpl", false, ""⟩))]) :=
  (load_reset_requests_identical ⟨"", [], [], [], "tpl", false, ""⟩ true (.reject "x")).2.2.1
    (postJsonRequest "/templates/load" (Json.obj [("name", Json.str "tpl")])) (by decide)

/-- C10: For every selected template, declining the blocking confirmation prompt of
LoadTemplate, ResetTemplate, or DeleteTemplate issues no network request, shows no
alert, triggers no template-list refresh, and leaves the whole visible state (chat
view, debug log, template list, name input) unchanged. -/
theorem decline_confirm_no_request_no_change (a : LRAction) (st : Dom)
    (o : FetchOutcome) (hsel : st.selectValue ≠ "") (hdis : st.selectDisabled = false) :
    (handleLoadReset a st false o).1 = st ∧
    requestsOf (handleLoadReset a st false o).2 = [] ∧
    alertsOf (handleLoadReset a st false o).2 = [] ∧
    refreshCount (handleLoadReset a st false o).2 = 0 ∧
    (deleteTemplateClick st false o).1 = st ∧
    requestsOf (deleteTemplateClick st false o).2 = [] ∧
    alertsOf (deleteTemplateClick st false o).2 = [] ∧
    refreshCount (deleteTemplateClick st false o).2 = 0 := by
  unfold handleLoadReset deleteTemplateClick
  simp [hsel, hdis, requestsOf, alertsOf, refreshCount]

/-- C10 witness: concrete declined confirmation on a state with "tpl" selected. -/
theorem decline_confirm_no_request_no_change_witness :
    (handleLoadReset .load ⟨"m", [], ["d"], [⟨some "tpl", "tpl", false⟩], "tpl", false, "n"⟩
        false (.reject "x")).1 =
      ⟨"m", [], ["d"], [⟨some "tpl", "tpl", false⟩], "tpl", false, "n"⟩ ∧
    requestsOf (handleLoadReset .load
        ⟨"m", [], ["d"], [⟨some "tpl", "tpl", false⟩], "tpl", false, "n"⟩ false (.reject "x")).2 = [] :=
  ⟨(decline_confirm_no_request_no_change .load
      ⟨"m", [], ["d"], [⟨some "tpl", "tpl", false⟩], "tpl", false, "n"⟩
      (.reject "x") (by decide) (by decide)).1,
   (decline_confirm_no_request_no_change .load
      ⟨"m", [], ["d"], [⟨some "tpl", "tpl", false⟩], "tpl", false, "n"⟩
      (.reject "x") (by decide) (by decide)).2.1⟩

/-- C5: On every successful load or reset of a template (ok status, body decoded to
a non-null value), the chat turn sequence and the debug log are both emptied while
every other field — in particular the template option list and the name input — is
untouched, and `loadTemplates` is not invoked. -/
theorem load_reset_success_clears_chat_and_log (a : LRAction) (st : Dom)
    (status : Nat) (j : Json)
    (hsel : st.selectValue ≠ "") (hdis : st.selectDisabled = false)
    (hok : statusOk status = true) (hnn : j.isNull = false) :
    (handleLoadReset a st true (.resp status (.ok j))).1 =
      { st with chatMessages := [], debugLog := [] } ∧
    refreshCount (handleLoadReset a st true (.resp status (.ok j))).2 = 0 := by
  unfold handleLoadReset
  rw [if_neg (by simp [hsel, hdis]), if_neg (by simp)]
  simp only [hok, if_true]
  cases h : jsGetField j "success" with
  | none =>
      rw [jsGetField_eq_none_iff] at h
      subst h
      simp [Json.isNull] at hnn
  | some v => simp [refreshCount]

/-- C5 witness: a concrete successful reset empties the chat and debug log and keeps
the option list. -/
theorem load_reset_success_clears_chat_and_log_witness :
    (handleLoadReset .reset
        ⟨"m", [⟨"You", "hi", "user-message"⟩], ["d1"], [⟨some "tpl", "tpl", false⟩], "tpl", false, "n"⟩
        true (.resp 200 (.ok (.obj [("success", .str "Loaded.")])))).1 =
      ⟨"m", [], [], [⟨some "tpl", "tpl", false⟩], "tpl", false, "n"⟩ :=
  (load_reset_success_clears_chat_and_log .reset
    ⟨"m", [⟨"You", "hi", "user-message"⟩], ["d1"], [⟨some "tpl", "tpl", false⟩], "tpl", false, "n"⟩
    200 (.obj [("success", .str "Loaded.")])
    (by decide) (by decide) (by decide) (by decide)).1

/-- C6: On every run of the save and delete handlers, `loadTemplates` is invoked
exactly once exactly when the run succeeded (validation passed, confirmation given
where applicable, ok status, body decoded to a non-null value), and never on a
failure path. -/
theorem save_delete_refresh_exactly_on_success (st : Dom) (c : Bool) (o : FetchOutcome) :
    refreshCount (saveTemplateClick st o).2 =
      (if jsTrim st.templateNameInput ≠ "" ∧ opSuccess o = true then 1 else 0) ∧
    refreshCount (deleteTemplateClick st c o).2 =
      (if (st.selectValue ≠ "" ∧ st.selectDisabled = false) ∧ c = true ∧ opSuccess o = true
       then 1 else 0) := by
  constructor
  · unfold saveTemplateClick
    by_cases h1 : jsTrim st.templateNameInput = ""
    · simp [h1, refreshCount]
    · rw [if_neg h1]
      cases o with
      | reject m => simp [refreshCount, opSuccess, h1]
      | resp status body =>
          cases body with
          | error m => simp [refreshCount, opSuccess, h1]
          | ok j =>
              by_cases hs : statusOk status = true
              · simp only [hs, if_true]
                cases h : jsGetField j "success" with
                | none =>
                    rw [jsGetField_eq_none_iff] at h
                    subst h
                    simp [refreshCount, opSuccess, Json.isNull, hs]
                | some v =>
                    have := Json.isNull_eq_false_of_getField_some j "success" v h
                    simp [refreshCount, opSuccess, hs, this, h1]
              · cases h : jsGetField j "error" <;>
                  simp [refreshCount, opSuccess, hs, h]
  · unfold deleteTemplateClick
    by_cases h1 : (decide (st.selectValue = "") || st.selectDisabled) = true
    · have : ¬(st.selectValue ≠ "" ∧ st.selectDisabled = false) := by
        simp only [Bool.or_eq_true, decide_eq_true_eq] at h1
        rcases h1 with h | h <;> simp [h]
      simp [h1, refreshCount, this]
    · have hv : st.selectValue ≠ "" := by
        simp only [Bool.or_eq_true, decide_eq_true_eq, not_or] at h1
        exact h1.1
      have hd : st.selectDisabled = false := by
        simp only [Bool.or_eq_true, decide_eq_true_eq, not_or, Bool.not_eq_true] at h1
        exact h1.2
      rw [if_neg h1]
      cases c with
      | false => simp [refreshCount]
      | true =>
          rw [if_neg (by simp)]
          cases o with
          | reject m => simp [refreshCount, opSuccess, hv, hd]
          | resp status body =>
              cases body with
              | error m => simp [refreshCount, opSuccess, hv, hd]
              | ok j =>
                  by_cases hs : statusOk status = true
                  · simp only [hs, if_true]
                    cases h : jsGetField j "success" with
                    | none =>
                        rw [jsGetField_eq_none_iff] at h
                        subst h
                        simp [refreshCount, opSuccess, Json.isNull, hs]
                    | some v =>
                        have := Json.isNull_eq_false_of_getField_some j "success" v h
                        simp [refreshCount, opSuccess, hs, this, hv, hd]
                  · cases h : jsGetField j "error" <;>
                      simp [refreshCount, opSuccess, hs, h]

/-- C6 witness: a concrete successful save fires exactly one refresh. -/
theorem save_delete_refresh_exactly_on_success_witness :
    refreshCount (saveTemplateClick ⟨"", [], [], [], "", false, "alpha"⟩
        (.resp 200 (.ok (.obj [("success", .str "Saved.")])))).2 =
      (if jsTrim (Dom.mk "" [] [] [] "" false "alpha").templateNameInput ≠ "" ∧
          opSuccess (.resp 200 (.ok (.obj [("success", .str "Saved.")]))) = true
       then 1 else 0) :=
  (save_delete_refresh_exactly_on_success ⟨"", [], [], [], "", false, "alpha"⟩ true
    (.resp 200 (.ok (.obj [("success", .str "Saved.")])))).1

theorem loadTemplates_arr (st : Dom) (status : Nat) (l : List Json) :
    loadTemplates st (.resp status (.ok (.arr l))) =
      (setOptions st (if l.length = 0 then [placeholderOption] else l.map mkTemplateOption),
       [.request ⟨"/templates", "GET", [], none⟩]) := by
  unfold loadTemplates
  by_cases hl : l.length = 0
  · simp [jsGetField, strictEqZero, hl]
  · simp [jsGetField, strictEqZero, hl]

/-- C7: RefreshTemplateList applied to an empty server-provided list renders exactly
the one disabled placeholder entry; applied to a non-empty list of names it renders
exactly one option per name, in order, each enabled (selectable) and with value
equal to its name. -/
theorem refresh_renders_placeholder_or_options (st : Dom) (status : Nat)
    (names : List String) :
    (loadTemplates st (.resp status (.ok (.arr (names.map Json.str))))).1.templateOptions =
      (if names = [] then [placeholderOption]
       else names.map fun n => OptionEl.mk (some n) n false) ∧
    placeholderOption.disabled = true ∧
    (∀ n : String, (OptionEl.mk (some n) n false).value = n ∧
        (OptionEl.mk (some n) n false).disabled = false) := by
  refine ⟨?_, rfl, fun n => ⟨rfl, rfl⟩⟩
  rw [loadTemplates_arr]
  by_cases hn : names = []
  · subst hn
    simp [setOptions]
  · simp [setOptions, hn, List.map_map, Function.comp, mkTemplateOption,
      jsString, textContentSet]

/-- C7 witness: a concrete two-name list renders two enabled options with value
equal to name. -/
theorem refresh_renders_placeholder_or_options_witness :
    (loadTemplates ⟨"", [], [], [], "", false, ""⟩
        (.resp 200 (.ok (.arr (["a", "b"].map Json.str))))).1.templateOptions =
      (if (["a", "b"] : List String) = [] then [placeholderOption]
       else ["a", "b"].map fun n => OptionEl.mk (some n) n false) :=
  (refresh_renders_placeholder_or_options ⟨"", [], [], [], "", false, ""⟩ 200 ["a", "b"]).1

/-- C8: When the save endpoint responds with a non-2xx status carrying a structured
`{error: msg}` body, the user is alerted with a message derived from the server
error, the whole state — in particular the template name input — is unchanged, and
the template list is not refreshed. -/
theorem save_error_shows_message_preserves_state (st : Dom) (status : Nat) (msg : String)
    (hname : jsTrim st.templateNameInput ≠ "") (hstatus : statusOk status = false) :
    (saveTemplateClick st (.resp status (.ok (.obj [("error", .str msg)])))).1 = st ∧
    alertsOf (saveTemplateClick st (.resp status (.ok (.obj [("error", .str msg)])))).2 =
      ["Error saving template: " ++ msg] ∧
    refreshCount (saveTemplateClick st (.resp status (.ok (.obj [("error", .str msg)])))).2 = 0 := by
  unfold saveTemplateClick
  rw [if_neg hname]
  simp [hstatus, jsGetField, lookupField, errorCtorMsg, jsString, alertsOf, refreshCount]

/-- C8 witness: the spec's scenario — status 400 with body `{error: "name exists"}`
and name input "alpha". -/
theorem save_error_shows_message_preserves_state_witness :
    (saveTemplateClick ⟨"", [], [], [], "", false, "alpha"⟩
        (.resp 400 (.ok (.obj [("error", .str "name exists")])))).1 =
      ⟨"", [], [], [], "", false, "alpha"⟩ ∧
    alertsOf (saveTemplateClick ⟨"", [], [], [], "", false, "alpha"⟩
        (.resp 400 (.ok (.obj [("error", .str "name exists")])))).2 =
      ["Error saving template: " ++ "name exists"] ∧
    refreshCount (saveTemplateClick ⟨"", [], [], [], "", false, "alpha"⟩
        (.resp 400 (.ok (.obj [("error", .str "name exists")])))).2 = 0 :=
  save_error_shows_message_preserves_state ⟨"", [], [], [], "", false, "alpha"⟩ 400
    "name exists" (by decide) (by decide)

theorem chatResolve_chatMessages (st : Dom) (o : FetchOutcome) :
    (chatResolve st o).1.chatMessages = st.chatMessages ++ [chatOutcomeTurn o] := by
  unfold chatResolve chatOutcomeTurn
  cases o with
  | reject m => simp
  | resp status body =>
      by_cases hs : statusOk status = true
      · cases body with
        | error m => simp [hs]
        | ok data =>
            cases hf : jsGetField data "response" with
            | none =>
                rw [jsGetField_eq_none_iff] at hf
                subst hf
                simp [hs, Json.isNull, jsGetField]
            | some v =>
                have hnn := Json.isNull_eq_false_of_getField_some data "response" v hf
                simp [hs, hf, hnn, appendMessage, updateDebugLog, Option.join]
      · cases body with
        | error m => simp [hs]
        | ok data => simp [hs]

theorem chatResolve_debugLog_of_failure (st : Dom) (o : FetchOutcome)
    (h : chatListedFailure o = true) :
    (chatResolve st o).1.debugLog = st.debugLog ∧
    alertsOf (chatResolve st o).2 = [] ∧
    (∃ m, consoleErrorsOf (chatResolve st o).2 = [("Error:", m)]) := by
  unfold chatResolve
  cases o with
  | reject m => simp [alertsOf, consoleErrorsOf]
  | resp status body =>
      cases body with
      | error m =>
          by_cases hs : statusOk status = true <;>
            simp [hs, alertsOf, consoleErrorsOf]
      | ok data =>
          have hs : statusOk status = false := by
            simpa [chatListedFailure] using h
          simp [hs, alertsOf, consoleErrorsOf]

theorem chatSubmit_eq_of_nonempty (st : Dom) (o : FetchOutcome)
    (h : jsTrim st.messageInput ≠ "") :
    chatSubmit st o =
      ((chatResolve
          (appendMessage { st with messageInput := "" } "You"
            (some (.str (jsTrim st.messageInput))) "user-message") o).1,
       .request (postJsonRequest "/chat" (.obj [("message", .str (jsTrim st.messageInput))])) ::
         (chatResolve
            (appendMessage { st with messageInput := "" } "You"
              (some (.str (jsTrim st.messageInput))) "user-message") o).2) := by
  unfold chatSubmit chatSubmitSync
  rw [if_neg h]

/-- C1 (amended): For every message input that is non-empty after trimming, the chat
handler appends exactly one User turn synchronously and exactly one further turn
after the request settles — a Bot turn when the request succeeded (ok status, body
decoded to a non-null value) and the fixed System turn otherwise, never zero
further turns and never two. -/
theorem chat_appends_one_user_and_one_outcome_turn (st : Dom) (outcome : FetchOutcome)
    (h : jsTrim st.messageInput ≠ "") :
    (chatSubmitSync st).1.chatMessages = st.chatMessages ++ [userTurnOf st] ∧
    (chatSubmit st outcome).1.chatMessages =
      st.chatMessages ++ [userTurnOf st, chatOutcomeTurn outcome] ∧
    (chatOutcomeTurn outcome).sender =
      (if opSuccess outcome = true then "Potato" else "System") ∧
    (chatOutcomeTurn outcome).cssClass = "bot-message" ∧
    (opSuccess outcome = false → chatOutcomeTurn outcome = chatErrorTurn) := by
  refine ⟨?_, ?_, ?_, ?_, ?_⟩
  · unfold chatSubmitSync
    rw [if_neg h]
    simp [appendMessage, userTurnOf, textContentSet, jsString]
  · rw [chatSubmit_eq_of_nonempty st outcome h]
    rw [chatResolve_chatMessages]
    simp [appendMessage, userTurnOf, textContentSet, jsString]
  · unfold chatOutcomeTurn opSuccess
    cases outcome with
    | reject m => simp [chatErrorTurn]
    | resp status body =>
        cases body with
        | error m => simp [chatErrorTurn]
        | ok data =>
            by_cases hb : (statusOk status && !data.isNull) = true <;>
              simp [hb, chatErrorTurn]
  · unfold chatOutcomeTurn
    cases outcome with
    | reject m => simp [chatErrorTurn]
    | resp status body =>
        cases body with
        | error m => simp [chatErrorTurn]
        | ok data =>
            by_cases hb : (statusOk status && !data.isNull) = true <;>
              simp [hb, chatErrorTurn]
  · intro hf
    unfold chatOutcomeTurn
    cases outcome with
    | reject m => simp
    | resp status body =>
        cases body with
        | error m => simp
        | ok data =>
            have : (statusOk status && !data.isNull) = false := by
              simpa [opSuccess] using hf
            simp [this]

/-- C1 witness: a concrete non-empty input with a successful response. -/
theorem chat_appends_one_user_and_one_outcome_turn_witness :
    (chatSubmit ⟨"hi", [], [], [], "", false, ""⟩
        (.resp 200 (.ok (.obj [("response", .str "yo")])))).1.chatMessages =
      [] ++ [userTurnOf ⟨"hi", [], [], [], "", false, ""⟩,
        chatOutcomeTurn (.resp 200 (.ok (.obj [("response", .str "yo")])))] :=
  (chat_appends_one_user_and_one_outcome_turn ⟨"hi", [], [], [], "", false, ""⟩
    (.resp 200 (.ok (.obj [("response", .str "yo")]))) (by decide)).2.1

/-- C1 counterexample: with status 200 (a success status) and a body that decodes
(to JSON `null`), the appended further turn is the fixed System turn, not a Bot
turn — `data.response` on `null` throws into the catch block. -/
theorem chat_null_body_appends_system_turn :
    statusOk 200 = true ∧
    (chatSubmit ⟨"hi", [], [], [], "", false, ""⟩ (.resp 200 (.ok .null))).1.chatMessages =
      [⟨"You", "hi", "user-message"⟩, chatErrorTurn] ∧
    chatErrorTurn.sender = "System" := by decide

/-- C9: On every SendMessage failure of the kinds the spec lists — the fetch
rejects, a non-success HTTP status, or a body that fails to decode — exactly the
fixed System turn is appended (its text independent of the error), the debug log is
untouched, nothing is alerted, and the error goes only to the console. -/
theorem chat_failure_fixed_system_turn_error_logged (st : Dom) (o : FetchOutcome)
    (hmsg : jsTrim st.messageInput ≠ "") (hfail : chatListedFailure o = true) :
    (chatSubmit st o).1.chatMessages =
      st.chatMessages ++ [userTurnOf st, chatErrorTurn] ∧
    (chatSubmit st o).1.debugLog = st.debugLog ∧
    alertsOf (chatSubmit st o).2 = [] ∧
    (∃ m, consoleErrorsOf (chatSubmit st o).2 = [("Error:", m)]) := by
  have hturn : chatOutcomeTurn o = chatErrorTurn := by
    unfold chatOutcomeTurn
    cases o with
    | reject m => simp
    | resp status body =>
        cases body with
        | error m => simp
        | ok data =>
            have hs : statusOk status = false := by
              simpa [chatListedFailure] using hfail
            simp [hs]
  rw [chatSubmit_eq_of_nonempty st o hmsg]
  have h2 := chatResolve_debugLog_of_failure
    (appendMessage { st with messageInput := "" } "You"
      (some (.str (jsTrim st.messageInput))) "user-message") o hfail
  refine ⟨?_, ?_, ?_, ?_⟩
  · rw [chatResolve_chatMessages, hturn]
    simp [appendMessage, userTurnOf, textContentSet, jsString]
  · rw [h2.1]
    simp [appendMessage]
  · simpa [alertsOf] using h2.2.1
  · obtain ⟨m, hm⟩ := h2.2.2
    exact ⟨m, by simpa [consoleErrorsOf] using hm⟩

/-- C9 witness: a concrete network rejection. -/
theorem chat_failure_fixed_system_turn_error_logged_witness :
    (chatSubmit ⟨"hi", [], ["old"], [], "", false, ""⟩ (.reject "boom")).1.chatMessages =
      [] ++ [userTurnOf ⟨"hi", [], ["old"], [], "", false, ""⟩, chatErrorTurn] ∧
    (chatSubmit ⟨"hi", [], ["old"], [], "", false, ""⟩ (.reject "boom")).1.debugLog = ["old"] :=
  ⟨(chat_failure_fixed_system_turn_error_logged ⟨"hi", [], ["old"], [], "", false, ""⟩
      (.reject "boom") (by decide) (by decide)).1,
   (chat_failure_fixed_system_turn_error_logged ⟨"hi", [], ["old"], [], "", false, ""⟩
      (.reject "boom") (by decide) (by decide)).2.1⟩

/-- C3 counterexample: the server answers with a decodable body that is not an array
(`{error: "oops"}`); `templateSelect.innerHTML = ''` has already run when
`templates.forEach` throws, so the selection control ends up empty instead of
retaining its prior single option. -/
theorem refresh_render_throw_clears_options :
    (loadTemplates ⟨"", [], [], [⟨some "alpha", "alpha", false⟩], "alpha", false, ""⟩
        (.resp 200 (.ok (.obj [("error", .str "oops")])))).1.templateOptions = [] ∧
    ([⟨some "alpha", "alpha", false⟩] : List OptionEl) ≠ [] ∧
    alertsOf (loadTemplates ⟨"", [], [], [⟨some "alpha", "alpha", false⟩], "alpha", false, ""⟩
        (.resp 200 (.ok (.obj [("error", .str "oops")])))).2 = [] := by decide

/-- C3 (amended): When RefreshTemplateList fails, the failure is only logged to the
console — no alert — and the rest of the state is untouched; the selection control
retains its prior options when the fetch rejects or the body fails to decode, but is
left empty when rendering throws (the clear precedes the render). -/
theorem refresh_failure_only_logged (st : Dom) (o : FetchOutcome)
    (h : loadRenderOk o = false) :
    alertsOf (loadTemplates st o).2 = [] ∧
    (∃ m, consoleErrorsOf (loadTemplates st o).2 = [("Failed to load templates:", m)]) ∧
    (loadTemplates st o).1.templateOptions =
      (if loadThrowsAfterClear o = true then [] else st.templateOptions) ∧
    (loadTemplates st o).1.chatMessages = st.chatMessages ∧
    (loadTemplates st o).1.debugLog = st.debugLog ∧
    (loadTemplates st o).1.messageInput = st.messageInput ∧
    (loadTemplates st o).1.templateNameInput = st.templateNameInput := by
  unfold loadTemplates loadThrowsAfterClear
  cases o with
  | reject m => simp [alertsOf, consoleErrorsOf]
  | resp status body =>
      cases body with
      | error m => simp [alertsOf, consoleErrorsOf]
      | ok j =>
          simp only [loadRenderOk, Bool.or_eq_false_iff] at h
          obtain ⟨hz, ha⟩ := h
          cases hf : jsGetField j "length" with
          | none =>
              rw [jsGetField_eq_none_iff] at hf
              subst hf
              simp [jsGetField, alertsOf, consoleErrorsOf, setOptions, strictEqZero,
                Json.isArr]
          | some lengthVal =>
              rw [hf] at hz
              simp only [Option.join, Option.bind, id_eq] at hz
              cases j with
              | arr elems => simp [Json.isArr] at ha
              | null => simp [jsGetField] at hf
              | bool b =>
                  simp [hf, hz, alertsOf, consoleErrorsOf, setOptions, Json.isArr,
                    Option.join]
              | num n =>
                  simp [hf, hz, alertsOf, consoleErrorsOf, setOptions, Json.isArr,
                    Option.join]
              | str s =>
                  simp [hf, hz, alertsOf, consoleErrorsOf, setOptions, Json.isArr,
                    Option.join]
              | obj fields =>
                  simp [hf, hz, alertsOf, consoleErrorsOf, setOptions, Json.isArr,
                    Option.join]

/-- C3 witness: a concrete rejected fetch leaves the prior option list in place. -/
theorem refresh_failure_only_logged_witness :
    alertsOf (loadTemplates ⟨"", [], [], [⟨some "alpha", "alpha", false⟩], "alpha", false, ""⟩
        (.reject "down")).2 = [] ∧
    (loadTemplates ⟨"", [], [], [⟨some "alpha", "alpha", false⟩], "alpha", false, ""⟩
        (.reject "down")).1.templateOptions =
      (if loadThrowsAfterClear (.reject "down") = true then []
       else [⟨some "alpha", "alpha", false⟩]) :=
  ⟨(refresh_failure_only_logged
      ⟨"", [], [], [⟨some "alpha", "alpha", false⟩], "alpha", false, ""⟩
      (.reject "down") (by decide)).1,
   (refresh_failure_only_logged
      ⟨"", [], [], [⟨some "alpha", "alpha", false⟩], "alpha", false, ""⟩
      (.reject "down") (by decide)).2.2.1⟩

theorem saveTemplateClick_request_shape (st : Dom) (outcome : FetchOutcome) :
    ∀ r ∈ requestsOf (saveTemplateClick st outcome).2,
      r = postJsonRequest "/templates/save"
            (.obj [("name", .str (jsTrim st.templateNameInput))]) := by
  unfold saveTemplateClick
  by_cases h1 : jsTrim st.templateNameInput = ""
  · simp [h1, requestsOf]
  · rw [if_neg h1]
    cases outcome with
    | reject msg => simp [requestsOf]
    | resp status body =>
        cases body with
        | error msg => simp [requestsOf]
        | ok result =>
            by_cases hs : statusOk status = true <;>
              cases h : jsGetField result "success" <;>
              cases h2 : jsGetField result "error" <;>
              simp [hs, h, h2, requestsOf]

theorem deleteTemplateClick_request_shape (st : Dom) (confirmAnswer : Bool)
    (outcome : FetchOutcome) :
    ∀ r ∈ requestsOf (deleteTemplateClick st confirmAnswer outcome).2,
      r = postJsonRequest "/templates/delete" (.obj [("name", .str st.selectValue)]) := by
  unfold deleteTemplateClick
  by_cases h1 : (decide (st.selectValue = "") || st.selectDisabled) = true
  · simp [h1, requestsOf]
  · rw [if_neg h1]
    cases confirmAnswer with
    | false => simp [requestsOf]
    | true =>
        rw [if_neg (by simp)]
        cases outcome with
        | reject msg => simp [requestsOf]
        | resp status body =>
            cases body with
            | error msg => simp [requestsOf]
            | ok result =>
                by_cases hs : statusOk status = true <;>
                  cases h : jsGetField result "success" <;>
                  cases h2 : jsGetField result "error" <;>
                  simp [hs, h, h2, requestsOf]

theorem requestsOf_cons_request (q : Request) (effs : List Effect) :
    requestsOf (.request q :: effs) = q :: requestsOf effs := by
  simp [requestsOf]

theorem chatResolve_requests (st : Dom) (o : FetchOutcome) :
    requestsOf (chatResolve st o).2 = [] := by
  unfold chatResolve
  cases o with
  | reject m => simp [requestsOf]
  | resp status body =>
      by_cases hs : statusOk status = true
      · cases body with
        | error m => simp [hs, requestsOf]
        | ok data =>
            cases hf : jsGetField data "response" <;>
              simp [hs, hf, requestsOf, updateDebugLog]
      · cases body with
        | error m => simp [hs, requestsOf]
        | ok data => simp [hs, requestsOf]

theorem chatSubmit_request_shape (st : Dom) (outcome : FetchOutcome) :
    ∀ r ∈ requestsOf (chatSubmit st outcome).2,
      r = postJsonRequest "/chat" (.obj [("message", .str (jsTrim st.messageInput))]) := by
  by_cases h : jsTrim st.messageInput = ""
  · unfold chatSubmit chatSubmitSync
    rw [if_pos h]
    simp [requestsOf]
  · intro r hr
    rw [chatSubmit_eq_of_nonempty st outcome h, requestsOf_cons_request,
      chatResolve_requests] at hr
    simpa using hr

theorem loadTemplates_request_shape (st : Dom) (outcome : FetchOutcome) :
    ∀ r ∈ requestsOf (loadTemplates st outcome).2,
      r = ⟨"/templates", "GET", [], none⟩ := by
  unfold loadTemplates
  cases outcome with
  | reject msg => simp [requestsOf]
  | resp status body =>
      cases body with
      | error msg => simp [requestsOf]
      | ok templates =>
          cases h : jsGetField templates "length" with
          | none => simp [h, requestsOf]
          | some lengthVal =>
              by_cases hz : strictEqZero lengthVal = true
              · simp [h, hz, requestsOf]
              · cases templates <;> simp [h, hz, requestsOf]

/-- C4 counterexample: the template-list fetch (`fetch('/templates')`) is a GET that
carries neither a `Content-Type: application/json` header nor any body. -/
theorem template_list_fetch_has_no_json_header :
    requestsOf (loadTemplates ⟨"", [], [], [], "", false, ""⟩ (.resp 200 (.ok (.arr [])))).2 =
      [⟨"/templates", "GET", [], none⟩] ∧
    (Request.mk "/templates" "GET" [] none).headers = [] ∧
    (Request.mk "/templates" "GET" [] none).body = none := by decide

/-- C4 (amended): Every request the controller issues other than the template-list
fetch — the chat, save, load/reset, and delete requests — is a POST carrying the
header `Content-Type: application/json` and a `JSON.stringify`-produced (UTF-8)
JSON body; the template-list fetch is a GET with no headers and no body. -/
theorem requests_have_json_header_except_template_list (st : Dom) (c : Bool)
    (a : LRAction) (o : FetchOutcome) :
    (∀ r ∈ requestsOf (chatSubmit st o).2 ++ requestsOf (saveTemplateClick st o).2 ++
        requestsOf (handleLoadReset a st c o).2 ++ requestsOf (deleteTemplateClick st c o).2,
      r.method = "POST" ∧ ("Content-Type", "application/json") ∈ r.headers ∧
        ∃ j : Json, r.body = some (Json.stringify j)) ∧
    (∀ r ∈ requestsOf (loadTemplates st o).2,
      r.url = "/templates" ∧ r.method = "GET" ∧ r.headers = [] ∧ r.body = none) := by
  constructor
  · intro r hr
    have hwf : ∀ u p, (postJsonRequest u p).method = "POST" ∧
        ("Content-Type", "application/json") ∈ (postJsonRequest u p).headers ∧
        ∃ j : Json, (postJsonRequest u p).body = some (Json.stringify j) :=
      fun u p => ⟨rfl, by simp [postJsonRequest], p, rfl⟩
    rcases List.mem_append.mp hr with hr | hr4
    · rcases List.mem_append.mp hr with hr | hr3
      · rcases List.mem_append.mp hr with hr1 | hr2
        · rw [chatSubmit_request_shape st o r hr1]; exact hwf _ _
        · rw [saveTemplateClick_request_shape st o r hr2]; exact hwf _ _
      · rw [handleLoadReset_request_shape a st c o r hr3]; exact hwf _ _
    · rw [deleteTemplateClick_request_shape st c o r hr4]; exact hwf _ _
  · intro r hr
    rw [loadTemplates_request_shape st o r hr]
    exact ⟨rfl, rfl, rfl, rfl⟩

/-- C4 witness: the characterization applied to the concrete GET request of a
concrete template-list refresh. -/
theorem requests_have_json_header_except_template_list_witness :
    (Request.mk "/templates" "GET" [] none).url = "/templates" ∧
    (Request.mk "/templates" "GET" [] none).method = "GET" ∧
    (Request.mk "/templates" "GET" [] none).headers = [] ∧
    (Request.mk "/templates" "GET" [] none).body = none :=
  (requests_have_json_header_except_template_list ⟨"", [], [], [], "", false, ""⟩ true
      .load (.resp 200 (.ok (.arr [])))).2
    (Request.mk "/templates" "GET" [] none) (by decide)

end PotatoBot
